import Mathlib

/-!
# Verification of the orchestrator sub-agent execution engine

Shallow embedding of the core of the `orchestrator` repository
(`src/context.ts`, `src/spawn.ts`, `src/types.ts`, and the
`spawn_subagents` tool handler in `src/index.ts`), together with theorems
settling the frozen claims about it.

Modelling conventions:
* JavaScript strings are modelled as Lean `String`; `s.length` is the
  character count (the source's UTF-16 unit count agrees on the ASCII
  inputs used throughout).
* The filesystem, the JSON parser used by `summary` mode, the regular
  expression engine used by `grep` mode, and the token-usage regex of the
  copilot backend are nondeterministic inputs, modelled as oracle
  functions in `FsOracle` / `SpawnEnv`.
* Wall-clock times are modelled as millisecond offsets (`Nat`) from the
  `startTime` captured at the top of `spawnSubAgent`; a child process's
  observable behaviour in one attempt is an `AttemptBehavior` value.
* `JSON.stringify(inline_data, null, 2)` is not re-implemented; the
  rendered text of the inline data is carried as an `Option String`
  (`none` when `inline_data` is absent or empty, matching the source's
  guard).
-/

namespace Orchestrator

/-! ## String helpers with JavaScript semantics -/

/-- The `startsWithChars l sub` : does `l` start with `sub`? -/
def startsWithChars : List Char → List Char → Bool
  | _, [] => true
  | [], _ :: _ => false
  | c :: cs, d :: ds => c == d && startsWithChars cs ds

/-- The `containsChars l sub` : does `sub` occur contiguously in `l`?
(JavaScript `String.prototype.includes`.) -/
def containsChars : List Char → List Char → Bool
  | [], sub => sub.isEmpty
  | c :: cs, sub => startsWithChars (c :: cs) sub || containsChars cs sub

/-- The `strContains s sub` : JavaScript `s.includes(sub)`. -/
def strContains (s sub : String) : Bool :=
  containsChars s.toList sub.toList

/-- ASCII lower-casing (JavaScript `toLowerCase` on the ASCII error texts
the retry classifier inspects). -/
def lowerStr (s : String) : String :=
  String.mk (s.toList.map Char.toLower)

/-- Whitespace recognised by `trim` on the inputs in play. -/
def isSpaceChar (c : Char) : Bool :=
  c == ' ' || c == '\t' || c == '\n' || c == '\r'

/-- JavaScript `s.trim()`. -/
def jsTrim (s : String) : String :=
  String.mk (((s.toList.dropWhile isSpaceChar).reverse.dropWhile isSpaceChar).reverse)

/-- JavaScript `Array.prototype.join(sep)`. -/
def joinSep (sep : String) : List String → String
  | [] => ""
  | p :: ps => ps.foldl (fun acc q => acc ++ sep ++ q) p

/-- The `s.split('\n')` of JavaScript (split on a literal separator). -/
def splitLines (s : String) : List String :=
  s.splitOn "\n"

/-- JavaScript `x || d` for an optional string (`undefined` and `""` are
falsy). -/
def jsOrElse (o : Option String) (d : String) : String :=
  match o with
  | some s => if s = "" then d else s
  | none => d

/-- The `suf` is a suffix of `s` (used for the `.json` check in `summary`
mode). -/
def strEndsWith (s suf : String) : Bool :=
  List.isSuffixOf suf.toList s.toList

/-- JavaScript `arr.slice(-n)` for `n ≤ arr.length`. -/
def lastN (n : Nat) (l : List String) : List String :=
  l.drop (l.length - n)

/-! ## Data model (`src/types.ts`) -/

/-- The `ContextMode` from `types.ts`. -/
inductive ContextMode where
  | full
  | summary
  | grep
deriving DecidableEq, Repr

/-- The `FileContext` from `types.ts`. -/
structure FileContext where
  path : String
  mode : ContextMode
  pattern : Option String := none
  hint : Option String := none
deriving DecidableEq, Repr

/-- The `TaskContext` from `types.ts`. `inline_data` carries the
`JSON.stringify(inline_data, null, 2)` rendering of the inline record,
`none` when the record is absent or empty. -/
structure TaskContext where
  files : List FileContext := []
  inline_data : Option String := none
deriving DecidableEq, Repr

/-- The `SubAgentTask` from `types.ts`. -/
structure SubAgentTask where
  id : String
  prompt : String
  context : Option TaskContext := none
  mcp_servers : Option (List String) := none
  workspace : Option String := none
  timeout_seconds : Option Nat := none
  cli_backend : Option String := none
deriving DecidableEq, Repr

/-- The `TaskResult` from `types.ts`. -/
structure TaskResult where
  id : String
  success : Bool
  output : Option String := none
  error : Option String := none
  duration_ms : Int
  mcp_servers_requested : Option (List String) := none
  context_files_read : Option (List String) := none
  tokens : Option (Nat × Nat) := none
deriving DecidableEq, Repr

/-- The `SpawnSubagentsOutput` from `types.ts`. -/
structure SpawnSubagentsOutput where
  completed : Nat
  failed : Nat
  total : Nat
  results : List TaskResult
  total_duration_ms : Nat
deriving DecidableEq, Repr

/-- The part of `CLIConfig` the modelled code paths consult (backend
selection; argv construction is outside the claims). -/
structure CLIConfig where
  backend : String
deriving DecidableEq, Repr

/-! ## Timeout table (`src/types.ts`) -/

/-- The `DEFAULT_MCP_TIMEOUTS` from `types.ts` (the `'_default'` key included). -/
def DEFAULT_MCP_TIMEOUTS (server : String) : Option Nat :=
  if server = "filesystem" then some 30
  else if server = "memory" then some 30
  else if server = "github" then some 60
  else if server = "google-tasks" then some 60
  else if server = "playwright" then some 120
  else if server = "google-calendar" then some 90
  else if server = "leetcode" then some 90
  else if server = "_default" then some 60
  else none

/-- The `getRecommendedTimeout` from `types.ts`: `Math.max` of the per-server
entries, each defaulting to `DEFAULT_MCP_TIMEOUTS['_default'] = 60`. -/
def getRecommendedTimeout (mcpServers : Option (List String)) : Nat :=
  match mcpServers with
  | none => 60
  | some [] => 60
  | some ss => (ss.map (fun s => (DEFAULT_MCP_TIMEOUTS s).getD 60)).foldl max 0

/-- The resolved per-task timeout in milliseconds, from `spawn.ts`:
`(task.timeout_seconds || Math.max(recommendedTimeout, defaultTimeout)) * 1000`. -/
def resolveTimeoutMs (task : SubAgentTask) (defaultTimeout : Nat) : Nat :=
  (match task.timeout_seconds with
   | some t => if t = 0 then max (getRecommendedTimeout task.mcp_servers) defaultTimeout else t
   | none => max (getRecommendedTimeout task.mcp_servers) defaultTimeout) * 1000

/-- Modelled from the spec: "Resolve effective timeout = max(explicit task
timeout, a per-auxiliary-server recommended minimum looked up from a static
table, a batch-level default)" — the spec's wording of the timeout
resolution, kept separate from the source-derived `resolveTimeoutMs` so the
two can be compared. -/
def resolveTimeoutSpecMs (task : SubAgentTask) (defaultTimeout : Nat) : Nat :=
  (max (task.timeout_seconds.getD 0)
    (max (getRecommendedTimeout task.mcp_servers) defaultTimeout)) * 1000

/-! ## Context Builder (`src/context.ts`) -/

/-- Outcome of `readFile(fullPath, 'utf-8')`. -/
inductive ReadOutcome where
  | ok (content : String)
  | err (msg : String)
deriving DecidableEq, Repr

/-- Filesystem / library oracles consumed by the Context Builder:
`read` is `fs.readFile`, `jsonTopKeys` is `Object.keys(JSON.parse c)`
(`none` on a parse failure), `regexMatch pat line` is
`buildSearchRegex(pat).test(line)`. -/
structure FsOracle where
  read : String → ReadOutcome
  jsonTopKeys : String → Option (List String)
  regexMatch : String → String → Bool

/-- The `path.isAbsolute(p) ? p : path.join(workspace, p)` (POSIX, on the
already-normalised paths in play). -/
def resolvePath (workspace p : String) : String :=
  if p.toList.head? = some '/' then p else workspace ++ "/" ++ p

/-- The line-based preview of `summary` mode. -/
def summaryPreview (p content : String) : String :=
  let lines := splitLines content
  let preview :=
    if lines.length > 10 then
      joinSep "\n" (lines.take 5) ++ "\n... (" ++ toString (lines.length - 10)
        ++ " lines) ...\n" ++ joinSep "\n" (lastN 5 lines)
    else content
  p ++ " (" ++ toString lines.length ++ " lines):\n" ++ preview

/-- The `readFileWithMode` from `context.ts`. -/
def readFileWithMode (fs : FsOracle) (fc : FileContext) (workspace : String) : String :=
  let fullPath := resolvePath workspace fc.path
  match fc.mode with
  | .full =>
    match fs.read fullPath with
    | .ok content => fc.path ++ ":\n" ++ content
    | .err msg => fc.path ++ ": [error: " ++ msg ++ "]"
  | .summary =>
    match fs.read fullPath with
    | .err msg => fc.path ++ ": [error: " ++ msg ++ "]"
    | .ok content =>
      match (if strEndsWith fullPath ".json" then fs.jsonTopKeys content else none) with
      | some keys =>
        fc.path ++ " (JSON, " ++ toString keys.length ++ " top-level keys): "
          ++ joinSep ", " (keys.take 10) ++ (if keys.length > 10 then "..." else "")
      | none => summaryPreview fc.path content
  | .grep =>
    match fc.pattern with
    | none => fc.path ++ ": [grep mode requires pattern]"
    | some pat =>
      match fs.read fullPath with
      | .err msg => fc.path ++ ": [error: " ++ msg ++ "]"
      | .ok content =>
        let ms := ((splitLines content).filter (fun line => fs.regexMatch pat line)).take 20
        fc.path ++ " (grep \"" ++ pat ++ "\"):\n"
          ++ (if ms.isEmpty then "[no matches]" else joinSep "\n" ms)

/-- The optional `  → Hint: …` part pushed after a file's content. -/
def hintPart (fc : FileContext) : List String :=
  match fc.hint with
  | some h => ["  → Hint: " ++ h]
  | none => []

/-- The `contextParts` contributed by the file loop of
`buildEnrichedPrompt`. -/
def filePartsOf (fs : FsOracle) (workspace : String) : List FileContext → List String
  | [] => []
  | fc :: rest => readFileWithMode fs fc workspace :: (hintPart fc ++ filePartsOf fs workspace rest)

/-- All `contextParts` of `buildEnrichedPrompt` (file parts, then inline
data). -/
def contextPartsOf (fs : FsOracle) (ctx : Option TaskContext) (workspace : String) : List String :=
  match ctx with
  | none => []
  | some c =>
    filePartsOf fs workspace c.files ++
      (match c.inline_data with
       | some s => ["inline_data: " ++ s]
       | none => [])

/-- The `filesRead` accumulated by the file loop of `buildEnrichedPrompt`:
the path of every referenced file, pushed unconditionally. -/
def filesReadOf (ctx : Option TaskContext) : List String :=
  match ctx with
  | none => []
  | some c => c.files.map (·.path)

/-- The `MAX_PROMPT_LENGTH` from `context.ts`. -/
def MAX_PROMPT_LENGTH : Nat := 6000

/-- The literal appended by the truncation branch of
`buildEnrichedPrompt`. -/
def TRUNC_MARKER : String := "\n... [context truncated for command line limits]"

/-- The `maxContextLen = MAX_PROMPT_LENGTH - originalPrompt.length - 100`
(signed, as in JavaScript). -/
def maxContextLenOf (originalPrompt : String) : Int :=
  (MAX_PROMPT_LENGTH : Int) - (originalPrompt.length : Int) - 100

/-- The truncation guard `contextStr.length > maxContextLen && maxContextLen > 500`. -/
def truncCond (cs : String) (m : Int) : Bool :=
  decide (m < (cs.length : Int)) && decide (500 < m)

/-- Does `buildEnrichedPrompt` take its truncation branch on this input? -/
def contextTruncated (fs : FsOracle) (originalPrompt : String)
    (ctx : Option TaskContext) (workspace : String) : Bool :=
  !(contextPartsOf fs ctx workspace).isEmpty &&
    truncCond (joinSep "\n\n" (contextPartsOf fs ctx workspace)) (maxContextLenOf originalPrompt)

/-- The `buildEnrichedPrompt` from `context.ts`: returns the (possibly
enriched, possibly truncated) prompt and the `filesRead` list. -/
def buildEnrichedPrompt (fs : FsOracle) (originalPrompt : String)
    (ctx : Option TaskContext) (workspace : String) : String × List String :=
  let filesRead := filesReadOf ctx
  let parts := contextPartsOf fs ctx workspace
  if parts.isEmpty then (originalPrompt, filesRead)
  else
    let cs := joinSep "\n\n" parts
    let m := maxContextLenOf originalPrompt
    let cs2 := if truncCond cs m then cs.take m.toNat ++ TRUNC_MARKER else cs
    ("[CONTEXT from parent agent]\n" ++ cs2 ++ "\n\n[TASK]\n" ++ originalPrompt, filesRead)

/-! ## Backend registry (`src/backends.ts`) -/

/-- The two members of `BackendRegistry`. -/
inductive BackendName where
  | copilot
  | claude
deriving DecidableEq, Repr

/-- The `getBackend` from `backends.ts`: case-insensitive registry lookup. -/
def getBackend (name : String) : Option BackendName :=
  let n := lowerStr name
  if n = "copilot" then some .copilot
  else if n = "claude" then some .claude
  else none

/-! ## Process Runner (`src/spawn.ts`) -/

/-- Observable behaviour of one spawned child process:
* `procError` — the `'error'` event fired (spawn-level failure) with the
  given message, `closeDelta` ms after `startTime`;
* `closed` — the `'close'` event fired with the given exit `code`
  (`none` models JavaScript `null`, e.g. death by signal), accumulated
  `stdout`/`stderr`, the `timedOut` flag as set by the timeout handler,
  the timer-arming offset `armDelay` (ms after `startTime` at which
  `setTimeout` ran), and the close offset `closeDelta`. -/
inductive ProcOutcome where
  | procError (message : String) (closeDelta : Nat)
  | closed (code : Option Int) (stdout stderr : String) (timedOut : Bool)
      (armDelay closeDelta : Nat)
deriving DecidableEq, Repr

/-- Behaviour of one `spawnSubAgent` invocation: `checkDelta` is the
elapsed time at the unknown-backend early return, `outcome` the child
process behaviour when a backend is found. -/
structure AttemptBehavior where
  checkDelta : Nat := 0
  outcome : ProcOutcome
deriving DecidableEq, Repr

/-- Oracles of the spawn layer: the Context Builder's filesystem and the
copilot backend's token-usage regex scan over stdout. -/
structure SpawnEnv where
  fs : FsOracle
  tokenScan : String → Option (Nat × Nat)

/-- Operations performed on the `activeTasks` set. -/
inductive SetOp where
  | ins (id : String)
  | ers (id : String)
deriving DecidableEq, Repr

/-- The id an operation touches. -/
def SetOp.key : SetOp → String
  | .ins x => x
  | .ers x => x

/-- The `task.cli_backend || config.backend || 'copilot'`. -/
def backendNameOf (task : SubAgentTask) (config : CLIConfig) : String :=
  jsOrElse task.cli_backend (if config.backend = "" then "copilot" else config.backend)

/-- Rendering of the exit code in the `Exit code: ${code}` message
(JavaScript renders `null` as `"null"`). -/
def codeText : Option Int → String
  | some c => toString c
  | none => "null"

/-- The `spawnSubAgent` from `spawn.ts`, returning both the `TaskResult` and
the trace of `activeTasks` operations it performs.  Every return path
adds `task.id` on entry and deletes it just before resolving. -/
def spawnSubAgentRun (env : SpawnEnv) (b : AttemptBehavior) (task : SubAgentTask)
    (defaultWorkspace : String) (defaultTimeout : Nat) (config : CLIConfig) :
    TaskResult × List SetOp :=
  let workspace := jsOrElse task.workspace defaultWorkspace
  let timeoutMs := resolveTimeoutMs task defaultTimeout
  let backendName := backendNameOf task config
  match getBackend backendName with
  | none =>
    ({ id := task.id, success := false, output := none,
       error := some ("Unknown CLI backend: " ++ backendName ++ ". Available: copilot, claude"),
       duration_ms := (b.checkDelta : Int) },
     [SetOp.ins task.id, SetOp.ers task.id])
  | some backend =>
    let filesRead := (buildEnrichedPrompt env.fs task.prompt task.context workspace).2
    match b.outcome with
    | .procError message closeDelta =>
      ({ id := task.id, success := false, output := none, error := some message,
         duration_ms := (closeDelta : Int),
         mcp_servers_requested := task.mcp_servers,
         context_files_read := some filesRead },
       [SetOp.ins task.id, SetOp.ers task.id])
    | .closed code stdout stderr timedOut _armDelay closeDelta =>
      let parsedOutput := jsTrim stdout
      let parsedTokens :=
        match backend with
        | .copilot => env.tokenScan stdout
        | .claude => none
      let result : TaskResult :=
        if timedOut then
          { id := task.id, success := false, output := none,
            error := some ("Timeout after " ++ toString (timeoutMs / 1000) ++ "s"),
            duration_ms := (closeDelta : Int),
            mcp_servers_requested := task.mcp_servers,
            context_files_read := some filesRead }
        else if code = some 0 then
          { id := task.id, success := true, output := some parsedOutput, error := none,
            duration_ms := (closeDelta : Int),
            mcp_servers_requested := task.mcp_servers,
            context_files_read := some filesRead,
            tokens := parsedTokens }
        else
          { id := task.id, success := false,
            output := if parsedOutput = "" then none else some parsedOutput,
            error := some (if jsTrim stderr = "" then "Exit code: " ++ codeText code
                           else jsTrim stderr),
            duration_ms := (closeDelta : Int),
            mcp_servers_requested := task.mcp_servers,
            context_files_read := some filesRead }
      (result, [SetOp.ins task.id, SetOp.ers task.id])

/-- The `TaskResult` of one `spawnSubAgent` invocation. -/
def spawnSubAgent (env : SpawnEnv) (b : AttemptBehavior) (task : SubAgentTask)
    (defaultWorkspace : String) (defaultTimeout : Nat) (config : CLIConfig) : TaskResult :=
  (spawnSubAgentRun env b task defaultWorkspace defaultTimeout config).1

/-! ## Retry Wrapper (`src/spawn.ts`) -/

/-- The `isRetryableError` from `spawn.ts`. -/
def isRetryableError (r : TaskResult) : Bool :=
  if r.success then false
  else
    let e := lowerStr (r.error.getD "")
    strContains e "timeout" || strContains e "etimedout" || strContains e "econnreset"
      || strContains e "econnrefused" || strContains e "spawn"

/-- The retry loop of `spawnWithRetry`, generic in the number of attempts
still allowed after the current one (`remaining = maxAttempts - attempt`).
`step i` is the `(result, set-operation trace)` of attempt `i`.  Returns
`((result, final attempt number, total delay slept in ms), trace)`. -/
def spawnWithRetryFromRun (step : Nat → TaskResult × List SetOp) :
    Nat → Nat → (TaskResult × Nat × Nat) × List SetOp
  | 0, attempt =>
    let (r, ops) := step attempt
    ((r, attempt, 0), ops)
  | remaining + 1, attempt =>
    let (r, ops) := step attempt
    if r.success || !isRetryableError r then ((r, attempt, 0), ops)
    else
      let ((r2, a2, d2), ops2) := spawnWithRetryFromRun step remaining (attempt + 1)
      ((r2, a2, 2000 + d2), ops ++ ops2)

/-- The `spawnWithRetry` from `spawn.ts` with its default `maxAttempts = 2`:
attempt numbering starts at 1, so one more attempt is allowed after the
first. -/
def spawnWithRetryRun (env : SpawnEnv) (behs : Nat → AttemptBehavior) (task : SubAgentTask)
    (defaultWorkspace : String) (defaultTimeout : Nat) (config : CLIConfig) :
    (TaskResult × Nat × Nat) × List SetOp :=
  spawnWithRetryFromRun
    (fun i => spawnSubAgentRun env (behs i) task defaultWorkspace defaultTimeout config) 1 1

/-! ## Batch Orchestrator (`src/spawn.ts` + the handler in `src/index.ts`) -/

/-- Behaviour of one task's slot in the batch: the per-attempt process
behaviours, and — for the defensive `Promise.allSettled` branch that the
runner itself never exercises — an optional rejection reason
(`some m` with `m` the rejection's `reason?.message`). -/
structure TaskBehavior where
  attempts : Nat → AttemptBehavior
  reject : Option (Option String) := none

/-- One slot of `spawnSubAgents`: the fulfilled value of
`spawnWithRetry`, or the fallback result built from
`result.reason?.message || 'Unknown error'` for a rejected slot. -/
def execTask (env : SpawnEnv) (config : CLIConfig) (defaultWorkspace : String)
    (defaultTimeout : Nat) (tb : TaskBehavior) (task : SubAgentTask) : TaskResult :=
  match tb.reject with
  | some m =>
    { id := task.id, success := false,
      error := some (jsOrElse m "Unknown error"),
      duration_ms := 0 }
  | none => (spawnWithRetryRun env tb.attempts task defaultWorkspace defaultTimeout config).1.1

/-- The slot-by-slot map of `spawnSubAgents` (`tasks.map(...)` followed by
`Promise.allSettled`, which preserves input order). -/
def spawnSubAgentsGo (env : SpawnEnv) (config : CLIConfig) (defaultWorkspace : String)
    (defaultTimeout : Nat) (behs : Nat → TaskBehavior) :
    Nat → List SubAgentTask → List TaskResult
  | _, [] => []
  | i, t :: ts =>
    execTask env config defaultWorkspace defaultTimeout (behs i) t ::
      spawnSubAgentsGo env config defaultWorkspace defaultTimeout behs (i + 1) ts

/-- The `spawnSubAgents` from `spawn.ts`. -/
def spawnSubAgents (env : SpawnEnv) (config : CLIConfig) (behs : Nat → TaskBehavior)
    (tasks : List SubAgentTask) (defaultWorkspace : String) (defaultTimeout : Nat) :
    List TaskResult :=
  spawnSubAgentsGo env config defaultWorkspace defaultTimeout behs 0 tasks

/-- The aggregate assembly of the `spawn_subagents` handler in
`index.ts`. -/
def assembleOutput (results : List TaskResult) (totalDuration : Nat) : SpawnSubagentsOutput :=
  { completed := (results.filter (fun r => r.success)).length,
    failed := (results.filter (fun r => !r.success)).length,
    total := results.length,
    results := results,
    total_duration_ms := totalDuration }

/-! ## The `activeTasks` set (`src/spawn.ts` line 20) -/

/-- Applying one `Set` operation (`add` / `delete`). -/
def applyOp (s : Finset String) : SetOp → Finset String
  | .ins x => insert x s
  | .ers x => s.erase x

/-- Applying a trace of `Set` operations in order. -/
def applyOps (ops : List SetOp) (s : Finset String) : Finset String :=
  ops.foldl applyOp s

/-- Final membership of `x` after a trace, given its initial membership:
the last operation touching `x` decides. -/
def finalMem (x : String) (ops : List SetOp) (init : Bool) : Bool :=
  ops.foldl
    (fun m op =>
      match op with
      | .ins y => if y = x then true else m
      | .ers y => if y = x then false else m)
    init

/-! ## Concrete fixtures used by witnesses and counterexamples -/

/-- Default `TaskResult` used with `List.getD`. -/
def dummyResult : TaskResult :=
  { id := "", success := false, duration_ms := 0 }

/-- Default `SubAgentTask` used with `List.getD`. -/
def dummyTask : SubAgentTask :=
  { id := "", prompt := "" }

/-- A filesystem on which every read fails. -/
def fsErr : FsOracle :=
  { read := fun _ => .err "ENOENT: no such file or directory",
    jsonTopKeys := fun _ => none,
    regexMatch := fun _ _ => false }

/-- A filesystem on which every read returns the given content. -/
def fsOfContent (c : String) : FsOracle :=
  { read := fun _ => .ok c,
    jsonTopKeys := fun _ => none,
    regexMatch := fun _ _ => false }

/-- The string `aaa…a` of length `n`. -/
def aRep (n : Nat) : String :=
  String.mk (List.replicate n 'a')

/-- The string `ppp…p` of length `n`. -/
def pRep (n : Nat) : String :=
  String.mk (List.replicate n 'p')

/-- A context referencing one file `f` in `full` mode. -/
def ctxOneFile : TaskContext :=
  { files := [{ path := "f", mode := .full }] }

/-- A context referencing one missing file in `full` mode. -/
def ctxMissing : TaskContext :=
  { files := [{ path := "missing.txt", mode := .full }] }

/-- Spawn environment over the failing filesystem. -/
def envW : SpawnEnv :=
  { fs := fsErr, tokenScan := fun _ => none }

/-- Config selecting the copilot backend. -/
def configW : CLIConfig :=
  { backend := "copilot" }

/-- A minimal task. -/
def taskW : SubAgentTask :=
  { id := "t", prompt := "p" }

/-- A task requesting playwright alone with an explicit 5 s timeout. -/
def taskPW : SubAgentTask :=
  { id := "t1", prompt := "p", mcp_servers := some ["playwright"], timeout_seconds := some 5 }

/-- An attempt that exits non-zero with partial stdout and stderr `boom`. -/
def behFail : AttemptBehavior :=
  { outcome := .closed (some 1) " partial out " "boom" false 0 50 }

/-- A timed-out attempt (timer armed at +0 ms, close at +5000 ms). -/
def behTO : AttemptBehavior :=
  { outcome := .closed (some 0) "" "" true 0 5000 }

/-- An attempt that exits 0 with stdout `done`. -/
def behOk : AttemptBehavior :=
  { outcome := .closed (some 0) "done" "" false 0 10 }

/-- Every attempt fails with an `ECONNRESET` stderr. -/
def behsR : Nat → AttemptBehavior :=
  fun _ => { outcome := .closed (some 1) "" "ECONNRESET" false 0 10 }

/-- First attempt fails with `ECONNRESET`, the second succeeds. -/
def behsRS : Nat → AttemptBehavior :=
  fun i => if i = 1 then { outcome := .closed (some 1) "" "ECONNRESET" false 0 10 } else behOk

/-- A two-task batch. -/
def tasksW : List SubAgentTask :=
  [{ id := "a", prompt := "p" }, { id := "b", prompt := "q" }]

/-- Batch behaviour: every slot fulfilled, every attempt succeeds. -/
def behsW : Nat → TaskBehavior :=
  fun _ => { attempts := fun _ => behOk }

/-- Slot behaviour: fulfilled, every attempt fails with stderr `boom`. -/
def tbFail : TaskBehavior :=
  { attempts := fun _ => behFail }

/-- A task requesting playwright alone, with no explicit timeout. -/
def taskPl : SubAgentTask :=
  { id := "t2", prompt := "p", mcp_servers := some ["playwright"] }

/-! ## Helper lemmas -/

theorem length_filter_add_length_filter_not {α : Type} (p : α → Bool) (l : List α) :
    (l.filter p).length + (l.filter (fun a => !p a)).length = l.length := by
  induction l with
  | nil => rfl
  | cons a t ih =>
    by_cases h : p a = true <;> simp [List.filter_cons, h] <;> omega

/-- Every return path of `spawnSubAgent` performs exactly
`activeTasks.add(task.id)` followed by `activeTasks.delete(task.id)`. -/
theorem spawnSubAgentRun_ops (env : SpawnEnv) (b : AttemptBehavior) (task : SubAgentTask)
    (dw : String) (dt : Nat) (config : CLIConfig) :
    (spawnSubAgentRun env b task dw dt config).2 = [SetOp.ins task.id, SetOp.ers task.id] := by
  rcases hgb : getBackend (backendNameOf task config) with _ | bk <;>
    rcases ho : b.outcome with ⟨msg, cd⟩ | ⟨c, so, se, t, ad, cd⟩ <;>
      simp [spawnSubAgentRun, hgb, ho]

/-- Every return path of `spawnSubAgent` echoes the task id. -/
theorem spawnSubAgentRun_id (env : SpawnEnv) (b : AttemptBehavior) (task : SubAgentTask)
    (dw : String) (dt : Nat) (config : CLIConfig) :
    ((spawnSubAgentRun env b task dw dt config).1).id = task.id := by
  rcases hgb : getBackend (backendNameOf task config) with _ | bk <;>
    rcases ho : b.outcome with ⟨msg, cd⟩ | ⟨c, so, se, t, ad, cd⟩ <;>
      simp only [spawnSubAgentRun, hgb, ho] <;>
        (try split) <;> (try split) <;> rfl

/-- The retry loop returns the result of one of its attempts. -/
theorem spawnWithRetryFromRun_result (step : Nat → TaskResult × List SetOp) :
    ∀ (n a : Nat), ∃ k, (spawnWithRetryFromRun step n a).1.1 = (step k).1 := by
  intro n
  induction n with
  | zero => intro a; exact ⟨a, rfl⟩
  | succ m ih =>
    intro a
    cases hc : ((step a).1.success || !isRetryableError (step a).1) with
    | true => exact ⟨a, by simp [spawnWithRetryFromRun, hc]⟩
    | false =>
      obtain ⟨k, hk⟩ := ih (a + 1)
      exact ⟨k, by simp [spawnWithRetryFromRun, hc, hk]⟩

/-- A retryable result is a failure. -/
theorem isRetryableError_success (r : TaskResult) (h : isRetryableError r = true) :
    r.success = false := by
  by_cases hs : r.success = true
  · rw [isRetryableError, if_pos hs] at h; exact absurd h (by simp)
  · simpa using hs

theorem finalMem_cons_ins (x y : String) (rest : List SetOp) (init : Bool) :
    finalMem x (SetOp.ins y :: rest) init = finalMem x rest (if y = x then true else init) := rfl

theorem finalMem_cons_ers (x y : String) (rest : List SetOp) (init : Bool) :
    finalMem x (SetOp.ers y :: rest) init = finalMem x rest (if y = x then false else init) := rfl

theorem finalMem_append (x : String) (ops1 ops2 : List SetOp) (init : Bool) :
    finalMem x (ops1 ++ ops2) init = finalMem x ops2 (finalMem x ops1 init) := by
  simp [finalMem, List.foldl_append]

theorem finalMem_ins_ers (x : String) (init : Bool) :
    finalMem x [SetOp.ins x, SetOp.ers x] init = false := by
  rw [finalMem_cons_ins, if_pos rfl, finalMem_cons_ers, if_pos rfl]
  rfl

/-- Membership after one set operation, as a boolean step. -/
theorem decide_mem_applyOp (x : String) (s : Finset String) (op : SetOp) :
    decide (x ∈ applyOp s op)
      = (match op with
         | .ins y => if y = x then true else decide (x ∈ s)
         | .ers y => if y = x then false else decide (x ∈ s)) := by
  cases op with
  | ins y =>
    by_cases h : y = x
    · subst h; simp [applyOp]
    · have h2 : ¬ x = y := fun e => h e.symm
      simp [applyOp, Finset.mem_insert, h, h2]
  | ers y =>
    by_cases h : y = x
    · subst h; simp [applyOp]
    · have h2 : ¬ x = y := fun e => h e.symm
      simp [applyOp, Finset.mem_erase, h, h2]

/-- Final membership in the `activeTasks` set is decided by the trace. -/
theorem mem_applyOps (x : String) :
    ∀ (ops : List SetOp) (s : Finset String),
      x ∈ applyOps ops s ↔ finalMem x ops (decide (x ∈ s)) = true := by
  intro ops
  induction ops with
  | nil => intro s; simp [applyOps, finalMem]
  | cons op rest ih =>
    intro s
    have h2 : applyOps (op :: rest) s = applyOps rest (applyOp s op) := rfl
    rw [h2, ih (applyOp s op)]
    cases op with
    | ins y => rw [finalMem_cons_ins, decide_mem_applyOp]
    | ers y => rw [finalMem_cons_ers, decide_mem_applyOp]

/-- Operations touching other ids do not affect `x`'s final membership. -/
theorem finalMem_filter (x : String) :
    ∀ (ops : List SetOp) (init : Bool),
      finalMem x (ops.filter (fun op => op.key == x)) init = finalMem x ops init := by
  intro ops
  induction ops with
  | nil => intro init; rfl
  | cons op rest ih =>
    intro init
    cases op with
    | ins y =>
      by_cases h : y = x
      · rw [List.filter_cons_of_pos (by simp [SetOp.key, h]),
          finalMem_cons_ins, finalMem_cons_ins, ih]
      · rw [List.filter_cons_of_neg (by simp [SetOp.key, h]),
          finalMem_cons_ins, if_neg h, ih]
    | ers y =>
      by_cases h : y = x
      · rw [List.filter_cons_of_pos (by simp [SetOp.key, h]),
          finalMem_cons_ers, finalMem_cons_ers, ih]
      · rw [List.filter_cons_of_neg (by simp [SetOp.key, h]),
          finalMem_cons_ers, if_neg h, ih]

/-- The trace of the retry loop always leaves the task's id out of the
set, whatever its initial membership, provided every attempt's trace is an
add followed by a delete of that id. -/
theorem spawnWithRetryFromRun_final (step : Nat → TaskResult × List SetOp) (tid : String)
    (hstep : ∀ k, (step k).2 = [SetOp.ins tid, SetOp.ers tid]) :
    ∀ (n a : Nat) (init : Bool),
      finalMem tid (spawnWithRetryFromRun step n a).2 init = false := by
  intro n
  induction n with
  | zero => intro a init; simp [spawnWithRetryFromRun, hstep, finalMem_ins_ers]
  | succ m ih =>
    intro a init
    cases hc : ((step a).1.success || !isRetryableError (step a).1) with
    | true => simp [spawnWithRetryFromRun, hc, hstep, finalMem_ins_ers]
    | false =>
      simp only [spawnWithRetryFromRun, hc, hstep, Bool.false_eq_true, if_false,
        List.cons_append, List.nil_append]
      rw [finalMem_cons_ins, if_pos rfl, finalMem_cons_ers, if_pos rfl]
      exact ih (a + 1) false

/-- The trace of a (possibly retried) task execution always leaves the
task's id out of the set, whatever its initial membership. -/
theorem finalMem_retry_trace (env : SpawnEnv) (behs : Nat → AttemptBehavior)
    (task : SubAgentTask) (dw : String) (dt : Nat) (config : CLIConfig) (init : Bool) :
    finalMem task.id (spawnWithRetryRun env behs task dw dt config).2 init = false := by
  exact spawnWithRetryFromRun_final _ task.id
    (fun k => spawnSubAgentRun_ops env (behs k) task dw dt config) 1 1 init

theorem execTask_id (env : SpawnEnv) (config : CLIConfig) (dw : String) (dt : Nat)
    (tb : TaskBehavior) (task : SubAgentTask) :
    (execTask env config dw dt tb task).id = task.id := by
  unfold execTask
  split
  · rfl
  · obtain ⟨k, hk⟩ := spawnWithRetryFromRun_result
      (fun i => spawnSubAgentRun env (tb.attempts i) task dw dt config) 1 1
    rw [spawnWithRetryRun, hk, spawnSubAgentRun_id]

theorem spawnSubAgentsGo_length (env : SpawnEnv) (config : CLIConfig) (dw : String)
    (dt : Nat) (behs : Nat → TaskBehavior) :
    ∀ (ts : List SubAgentTask) (i : Nat),
      (spawnSubAgentsGo env config dw dt behs i ts).length = ts.length := by
  intro ts
  induction ts with
  | nil => intro i; rfl
  | cons t rest ih => intro i; simp [spawnSubAgentsGo, ih]

theorem spawnSubAgentsGo_getD_id (env : SpawnEnv) (config : CLIConfig) (dw : String)
    (dt : Nat) (behs : Nat → TaskBehavior) :
    ∀ (ts : List SubAgentTask) (i j : Nat), j < ts.length →
      ((spawnSubAgentsGo env config dw dt behs i ts).getD j dummyResult).id
        = (ts.getD j dummyTask).id := by
  intro ts
  induction ts with
  | nil => intro i j h; exact absurd h (Nat.not_lt_zero j)
  | cons t rest ih =>
    intro i j h
    cases j with
    | zero => simpa [spawnSubAgentsGo] using execTask_id env config dw dt (behs i) t
    | succ j' =>
      simp only [spawnSubAgentsGo, List.getD_cons_succ]
      exact ih (i + 1) j' (by simpa using Nat.lt_of_succ_lt_succ h)

/-- Shape of the result of a single attempt: success carries an output
and no error; failure always carries an error; the duration is
non-negative. -/
theorem spawnSubAgentRun_shape (env : SpawnEnv) (b : AttemptBehavior) (task : SubAgentTask)
    (dw : String) (dt : Nat) (config : CLIConfig) :
    (((spawnSubAgentRun env b task dw dt config).1).success = true →
      ((spawnSubAgentRun env b task dw dt config).1).output.isSome = true ∧
      ((spawnSubAgentRun env b task dw dt config).1).error = none) ∧
    (((spawnSubAgentRun env b task dw dt config).1).success = false →
      ((spawnSubAgentRun env b task dw dt config).1).error.isSome = true) ∧
    0 ≤ ((spawnSubAgentRun env b task dw dt config).1).duration_ms := by
  rcases hgb : getBackend (backendNameOf task config) with _ | bk <;>
    rcases ho : b.outcome with ⟨msg, cd⟩ | ⟨c, so, se, t, ad, cd⟩ <;>
      simp only [spawnSubAgentRun, hgb, ho] <;>
        (try split) <;> (try split) <;>
          refine ⟨fun hs => ?_, fun hs => ?_, by positivity⟩ <;> simp_all

/-! ## Claims -/

/-- C1: for every batch of N tasks (1 ≤ N ≤ 10) with pairwise-distinct
ids, the batch operation (`spawnSubAgents` plus the aggregate assembly)
returns a result list of length N whose j-th element's id equals the j-th
input task's id, in input order, and the aggregate counts satisfy
`completed + failed = total = N`. -/
theorem claimC1_batch_shape (env : SpawnEnv) (config : CLIConfig) (behs : Nat → TaskBehavior)
    (tasks : List SubAgentTask) (dw : String) (dt dur : Nat)
    (h1 : 1 ≤ tasks.length) (h10 : tasks.length ≤ 10)
    (hids : tasks.Pairwise (fun t u => t.id ≠ u.id)) :
    (spawnSubAgents env config behs tasks dw dt).length = tasks.length ∧
    (∀ j, j < tasks.length →
      ((spawnSubAgents env config behs tasks dw dt).getD j dummyResult).id
        = (tasks.getD j dummyTask).id) ∧
    (assembleOutput (spawnSubAgents env config behs tasks dw dt) dur).completed
        + (assembleOutput (spawnSubAgents env config behs tasks dw dt) dur).failed
        = (assembleOutput (spawnSubAgents env config behs tasks dw dt) dur).total ∧
    (assembleOutput (spawnSubAgents env config behs tasks dw dt) dur).total = tasks.length :=
  ⟨spawnSubAgentsGo_length env config dw dt behs tasks 0,
   fun j hj => spawnSubAgentsGo_getD_id env config dw dt behs tasks 0 j hj,
   length_filter_add_length_filter_not _ _,
   spawnSubAgentsGo_length env config dw dt behs tasks 0⟩

/-- Witness for C1: a concrete two-task batch with distinct ids. -/
theorem claimC1_witness :
    ((spawnSubAgents envW configW behsW tasksW "ws" 120).getD 1 dummyResult).id = "b" ∧
    (assembleOutput (spawnSubAgents envW configW behsW tasksW "ws" 120) 7).completed
        + (assembleOutput (spawnSubAgents envW configW behsW tasksW "ws" 120) 7).failed
        = (assembleOutput (spawnSubAgents envW configW behsW tasksW "ws" 120) 7).total ∧
    (assembleOutput (spawnSubAgents envW configW behsW tasksW "ws" 120) 7).total = 2 := by
  have h := claimC1_batch_shape envW configW behsW tasksW "ws" 120 7
    (by decide) (by decide) (by decide)
  exact ⟨h.2.1 1 (by decide), h.2.2.1, h.2.2.2⟩

/-- C2 as stated fails on the code: a non-zero exit with non-empty
trimmed stdout yields `success = false` with BOTH an error (the trimmed
stderr) and an output (the partial parsed stdout). -/
theorem claimC2_counterexample :
    (spawnSubAgent envW behFail taskW "ws" 120 configW).success = false ∧
    (spawnSubAgent envW behFail taskW "ws" 120 configW).error = some "boom" ∧
    (spawnSubAgent envW behFail taskW "ws" 120 configW).output = some "partial out" := by
  decide

/-- C2 (amended): every TaskResult of a task execution (with or without
retry, including the defensive rejected-slot fallback) satisfies: on
success there is an output and no error; on failure there is always an
error, and the output field may additionally carry the partial parsed
stdout of a non-zero exit for diagnostics; `duration_ms ≥ 0` always. -/
theorem claimC2_result_shape (env : SpawnEnv) (config : CLIConfig) (dw : String) (dt : Nat)
    (tb : TaskBehavior) (task : SubAgentTask) :
    ((execTask env config dw dt tb task).success = true →
      (execTask env config dw dt tb task).output.isSome = true ∧
      (execTask env config dw dt tb task).error = none) ∧
    ((execTask env config dw dt tb task).success = false →
      (execTask env config dw dt tb task).error.isSome = true) ∧
    0 ≤ (execTask env config dw dt tb task).duration_ms := by
  unfold execTask
  split
  · exact ⟨fun hs => by simp_all, fun _ => rfl, le_refl 0⟩
  · obtain ⟨k, hk⟩ := spawnWithRetryFromRun_result
      (fun i => spawnSubAgentRun env (tb.attempts i) task dw dt config) 1 1
    rw [spawnWithRetryRun, hk]
    exact spawnSubAgentRun_shape env (tb.attempts k) task dw dt config

/-- Witness for C2 (amended) at a concrete failing execution. -/
theorem claimC2_witness :
    (execTask envW configW "ws" 120 tbFail taskW).error.isSome = true ∧
    0 ≤ (execTask envW configW "ws" 120 tbFail taskW).duration_ms :=
  ⟨(claimC2_result_shape envW configW "ws" 120 tbFail taskW).2.1 (by decide),
   (claimC2_result_shape envW configW "ws" 120 tbFail taskW).2.2⟩

/-- C3 as stated fails on the code: with an explicit 5 s task timeout, a
`playwright` request (recommended minimum 120 s) and a 120 s batch
default, the runner resolves 5000 ms — not the 120000 ms the max-of-three
rule demands — and a timed-out run reports `Timeout after 5s`. -/
theorem claimC3_counterexample :
    resolveTimeoutMs taskPW 120 = 5000 ∧
    resolveTimeoutSpecMs taskPW 120 = 120000 ∧
    resolveTimeoutMs taskPW 120 < resolveTimeoutSpecMs taskPW 120 ∧
    (spawnSubAgent envW behTO taskPW "ws" 120 configW).error = some "Timeout after 5s" := by
  decide

/-- C3 (amended): the Process Runner resolves the effective timeout as
the explicit task timeout verbatim whenever one is given and non-zero —
so an explicit smaller timeout DOES lower the resolved timeout below the
recommended minimum and the batch default — and only in its absence (or
zero) as the maximum of the per-auxiliary-server recommended minimum and
the batch-level default. -/
theorem claimC3_timeout_resolution (task : SubAgentTask) (dt : Nat) :
    (∀ t, task.timeout_seconds = some t → t ≠ 0 →
      resolveTimeoutMs task dt = t * 1000) ∧
    ((task.timeout_seconds = none ∨ task.timeout_seconds = some 0) →
      resolveTimeoutMs task dt = max (getRecommendedTimeout task.mcp_servers) dt * 1000 ∧
      getRecommendedTimeout task.mcp_servers * 1000 ≤ resolveTimeoutMs task dt ∧
      dt * 1000 ≤ resolveTimeoutMs task dt) := by
  constructor
  · intro t ht hnz
    simp [resolveTimeoutMs, ht, hnz]
  · intro h
    have he : resolveTimeoutMs task dt
        = max (getRecommendedTimeout task.mcp_servers) dt * 1000 := by
      rcases h with h | h <;> simp [resolveTimeoutMs, h]
    refine ⟨he, ?_, ?_⟩ <;> rw [he]
    · exact Nat.mul_le_mul_right 1000 (le_max_left _ _)
    · exact Nat.mul_le_mul_right 1000 (le_max_right _ _)

/-- Witness for C3 (amended): explicit 5 s override, and a task with no
explicit timeout taking `max(recommended, default)`. -/
theorem claimC3_witness :
    resolveTimeoutMs taskPW 120 = 5 * 1000 ∧
    resolveTimeoutMs taskW 90 = max (getRecommendedTimeout taskW.mcp_servers) 90 * 1000 :=
  ⟨(claimC3_timeout_resolution taskPW 120).1 5 (by decide) (by decide),
   ((claimC3_timeout_resolution taskW 90).2 (Or.inl (by decide))).1⟩

/-- C4: a task whose child is still running when the resolved timeout
fires (the `timedOut` flag set, close following the kill) yields
`success = false` with the `Timeout after …s` error — whatever exit code
the child later produces — and `duration_ms ≥` the resolved timeout. -/
theorem claimC4_timeout_result (env : SpawnEnv) (config : CLIConfig) (task : SubAgentTask)
    (dw : String) (dt : Nat) (code : Option Int) (stdout stderr : String)
    (armDelay closeDelta checkDelta : Nat)
    (hbk : (getBackend (backendNameOf task config)).isSome = true)
    (hwf : armDelay + resolveTimeoutMs task dt ≤ closeDelta) :
    (spawnSubAgent env ⟨checkDelta, .closed code stdout stderr true armDelay closeDelta⟩
        task dw dt config).success = false ∧
    (spawnSubAgent env ⟨checkDelta, .closed code stdout stderr true armDelay closeDelta⟩
        task dw dt config).error
      = some ("Timeout after " ++ toString (resolveTimeoutMs task dt / 1000) ++ "s") ∧
    (resolveTimeoutMs task dt : Int)
      ≤ (spawnSubAgent env ⟨checkDelta, .closed code stdout stderr true armDelay closeDelta⟩
          task dw dt config).duration_ms := by
  rcases hgb : getBackend (backendNameOf task config) with _ | bk
  · rw [hgb] at hbk; exact absurd hbk (by simp)
  · unfold spawnSubAgent
    simp only [spawnSubAgentRun, hgb]
    refine ⟨rfl, rfl, ?_⟩
    show (resolveTimeoutMs task dt : Int) ≤ (closeDelta : Nat)
    omega

/-- Witness for C4: a child that would have exited 0 with output, killed
by a 120 s resolved timeout, closing at +120000 ms. -/
theorem claimC4_witness :
    (spawnSubAgent envW ⟨0, .closed (some 0) "late output" "" true 0 120000⟩
        taskW "ws" 120 configW).success = false ∧
    (spawnSubAgent envW ⟨0, .closed (some 0) "late output" "" true 0 120000⟩
        taskW "ws" 120 configW).error
      = some ("Timeout after " ++ toString (resolveTimeoutMs taskW 120 / 1000) ++ "s") ∧
    (resolveTimeoutMs taskW 120 : Int)
      ≤ (spawnSubAgent envW ⟨0, .closed (some 0) "late output" "" true 0 120000⟩
          taskW "ws" 120 configW).duration_ms :=
  claimC4_timeout_result envW configW taskW "ws" 120 (some 0) "late output" "" 0 120000 0
    (by decide) (by decide)

/-- The retry classifier, characterised: a failure whose lower-cased
error text contains one of the five transient indicators. -/
theorem isRetryableError_iff (r : TaskResult) :
    isRetryableError r = true ↔
      r.success = false ∧
        (strContains (lowerStr (r.error.getD "")) "timeout" = true ∨
         strContains (lowerStr (r.error.getD "")) "etimedout" = true ∨
         strContains (lowerStr (r.error.getD "")) "econnreset" = true ∨
         strContains (lowerStr (r.error.getD "")) "econnrefused" = true ∨
         strContains (lowerStr (r.error.getD "")) "spawn" = true) := by
  unfold isRetryableError
  by_cases hs : r.success = true <;>
    simp [hs, Bool.or_eq_true, or_assoc]

/-- C5: the Retry Wrapper re-invokes a failed task exactly once (two
total attempts, 2000 ms fixed delay) iff the failure's lower-cased error
text contains a transient indicator (timeout / etimedout / econnreset /
econnrefused / spawn); every success and every other failure returns
immediately with one attempt and zero delay; a retryable second failure
is still returned as the final result. -/
theorem claimC5_retry_policy (env : SpawnEnv) (config : CLIConfig)
    (behs : Nat → AttemptBehavior) (task : SubAgentTask) (dw : String) (dt : Nat) :
    (isRetryableError (spawnSubAgent env (behs 1) task dw dt config) = true →
      (spawnWithRetryRun env behs task dw dt config).1
        = (spawnSubAgent env (behs 2) task dw dt config, 2, 2000)) ∧
    (isRetryableError (spawnSubAgent env (behs 1) task dw dt config) = false →
      (spawnWithRetryRun env behs task dw dt config).1
        = (spawnSubAgent env (behs 1) task dw dt config, 1, 0)) ∧
    (isRetryableError (spawnSubAgent env (behs 1) task dw dt config) = true ↔
      (spawnSubAgent env (behs 1) task dw dt config).success = false ∧
        (strContains (lowerStr ((spawnSubAgent env (behs 1) task dw dt config).error.getD ""))
            "timeout" = true ∨
         strContains (lowerStr ((spawnSubAgent env (behs 1) task dw dt config).error.getD ""))
            "etimedout" = true ∨
         strContains (lowerStr ((spawnSubAgent env (behs 1) task dw dt config).error.getD ""))
            "econnreset" = true ∨
         strContains (lowerStr ((spawnSubAgent env (behs 1) task dw dt config).error.getD ""))
            "econnrefused" = true ∨
         strContains (lowerStr ((spawnSubAgent env (behs 1) task dw dt config).error.getD ""))
            "spawn" = true)) := by
  refine ⟨fun hR => ?_, fun hR => ?_, isRetryableError_iff _⟩
  · have hs : (spawnSubAgent env (behs 1) task dw dt config).success = false :=
      isRetryableError_success _ hR
    unfold spawnSubAgent at hs hR ⊢
    simp [spawnWithRetryRun, spawnWithRetryFromRun, hs, hR]
  · unfold spawnSubAgent at hR ⊢
    simp [spawnWithRetryRun, spawnWithRetryFromRun, hR]

/-- Witness for C5: an `ECONNRESET` failure is retried exactly once with
the 2000 ms delay, and the second attempt's result is final. -/
theorem claimC5_witness :
    isRetryableError (spawnSubAgent envW (behsRS 1) taskW "ws" 120 configW) = true ∧
    (spawnWithRetryRun envW behsRS taskW "ws" 120 configW).1
      = (spawnSubAgent envW (behsRS 2) taskW "ws" 120 configW, 2, 2000) :=
  ⟨by decide, (claimC5_retry_policy envW configW behsRS taskW "ws" 120).1 (by decide)⟩

/-- C6 as stated fails on the code: for a retried task the id is removed
when the FIRST attempt's (non-terminal) result is produced and re-added
for the second attempt, so after the first attempt's two set operations —
while the terminal result is still pending — the id is already absent. -/
theorem claimC6_counterexample :
    (spawnWithRetryRun envW behsR taskW "ws" 120 configW).2
      = [SetOp.ins "t", SetOp.ers "t", SetOp.ins "t", SetOp.ers "t"] ∧
    "t" ∉ applyOps ((spawnWithRetryRun envW behsR taskW "ws" 120 configW).2.take 2) ∅ ∧
    (spawnWithRetryRun envW behsR taskW "ws" 120 configW).2
      ≠ [SetOp.ins "t", SetOp.ers "t"] := by
  refine ⟨by decide, ?_, by decide⟩
  have h : (spawnWithRetryRun envW behsR taskW "ws" 120 configW).2.take 2
      = [SetOp.ins "t", SetOp.ers "t"] := by decide
  rw [h]
  simp [applyOps, applyOp]

/-- C6 (amended): each attempt adds the task id the instant its dispatch
begins and removes it when that attempt's result is produced, on every
exit path — so a retried task's id is briefly absent during the retry
delay — and since all of a task's set operations touch only its own id
and end with a removal, after any interleaved batch execution whose
operations on this id are exactly this task's trace, the id is absent
from the set. -/
theorem claimC6_lifecycle (env : SpawnEnv) (config : CLIConfig) (behs : Nat → AttemptBehavior)
    (b : AttemptBehavior) (task : SubAgentTask) (dw : String) (dt : Nat)
    (allOps : List SetOp) (s0 : Finset String)
    (hfilter : allOps.filter (fun op => op.key == task.id)
        = (spawnWithRetryRun env behs task dw dt config).2) :
    (spawnSubAgentRun env b task dw dt config).2 = [SetOp.ins task.id, SetOp.ers task.id] ∧
    task.id ∉ applyOps allOps s0 := by
  refine ⟨spawnSubAgentRun_ops env b task dw dt config, ?_⟩
  rw [mem_applyOps, ← finalMem_filter, hfilter, finalMem_retry_trace]
  simp

/-- Witness for C6 (amended): a retried execution's trace, run alone from
the empty set, leaves the id out. -/
theorem claimC6_witness :
    (spawnSubAgentRun envW behFail taskW "ws" 120 configW).2
      = [SetOp.ins "t", SetOp.ers "t"] ∧
    "t" ∉ applyOps (spawnWithRetryRun envW behsR taskW "ws" 120 configW).2 ∅ :=
  claimC6_lifecycle envW configW behsR behFail taskW "ws" 120
    (spawnWithRetryRun envW behsR taskW "ws" 120 configW).2 ∅ (by decide)

/-- C7 as stated fails: a task requesting playwright alone but carrying
an explicit 5 s timeout resolves 5000 ms, below the 120 s recommended
minimum, even with a lower 60 s batch default. -/
theorem claimC7_counterexample :
    taskPW.mcp_servers = some ["playwright"] ∧
    resolveTimeoutMs taskPW 60 = 5000 ∧
    resolveTimeoutMs taskPW 60 < 120 * 1000 := by
  decide

theorem foldl_max_init (l : List Nat) : ∀ b : Nat, b ≤ l.foldl max b := by
  induction l with
  | nil => intro b; exact le_refl b
  | cons c t ih => intro b; exact le_trans (le_max_left b c) (ih (max b c))

theorem le_foldl_max (l : List Nat) : ∀ (b a : Nat), a ∈ l → a ≤ l.foldl max b := by
  induction l with
  | nil => intro b a ha; exact absurd ha (List.not_mem_nil a)
  | cons c t ih =>
    intro b a ha
    rcases List.mem_cons.mp ha with h | h
    · subst h; exact le_trans (le_max_right b a) (foldl_max_init t (max b a))
    · exact ih (max b c) a h

/-- C7 (amended): for a task with NO explicit timeout, playwright alone
resolves ≥ 120 s even when the batch default is lower, filesystem alone
≥ 30 s, both together ≥ max of the two minima; the lookup for an
unrecognised server falls back to 60 s, and with several servers the
maximum of the minima applies. -/
theorem claimC7_recommended_minimums (task : SubAgentTask) (dt : Nat)
    (hts : task.timeout_seconds = none) :
    (task.mcp_servers = some ["playwright"] → 120 * 1000 ≤ resolveTimeoutMs task dt) ∧
    (task.mcp_servers = some ["filesystem"] → 30 * 1000 ≤ resolveTimeoutMs task dt) ∧
    (task.mcp_servers = some ["playwright", "filesystem"] →
      max 120 30 * 1000 ≤ resolveTimeoutMs task dt) ∧
    (∀ s, DEFAULT_MCP_TIMEOUTS s = none → getRecommendedTimeout (some [s]) = 60) ∧
    (∀ (ss : List String) (s : String), s ∈ ss →
      (DEFAULT_MCP_TIMEOUTS s).getD 60 ≤ getRecommendedTimeout (some ss)) := by
  refine ⟨fun h => ?_, fun h => ?_, fun h => ?_, fun s hs => ?_, fun ss s hmem => ?_⟩
  · have hr : getRecommendedTimeout task.mcp_servers = 120 := by rw [h]; decide
    simp only [resolveTimeoutMs, hts, hr]
    exact Nat.mul_le_mul_right 1000 (le_max_left _ _)
  · have hr : getRecommendedTimeout task.mcp_servers = 30 := by rw [h]; decide
    simp only [resolveTimeoutMs, hts, hr]
    exact Nat.mul_le_mul_right 1000 (le_max_left _ _)
  · have hr : getRecommendedTimeout task.mcp_servers = 120 := by rw [h]; decide
    simp only [resolveTimeoutMs, hts, hr]
    exact Nat.mul_le_mul_right 1000 (le_max_left _ _)
  · simp [getRecommendedTimeout, hs]
  · cases ss with
    | nil => exact absurd hmem (List.not_mem_nil s)
    | cons c t =>
      have hm : (DEFAULT_MCP_TIMEOUTS s).getD 60
          ∈ (c :: t).map (fun u => (DEFAULT_MCP_TIMEOUTS u).getD 60) :=
        List.mem_map_of_mem _ hmem
      exact le_foldl_max _ 0 _ hm

/-- Witness for C7 (amended): playwright alone with a 30 s batch default
still resolves ≥ 120 s; an unrecognised server name falls back to 60. -/
theorem claimC7_witness :
    120 * 1000 ≤ resolveTimeoutMs taskPl 30 ∧
    getRecommendedTimeout (some ["unknown-server"]) = 60 :=
  ⟨(claimC7_recommended_minimums taskPl 30 (by decide)).1 (by decide),
   (claimC7_recommended_minimums taskPl 30 (by decide)).2.2.2.1 "unknown-server" (by decide)⟩

/-! ### Context Builder claims -/

theorem aRep_length (n : Nat) : (aRep n).length = n := by
  show (List.replicate n 'a').length = n
  rw [List.length_replicate]

theorem pRep_length (n : Nat) : (pRep n).length = n := by
  show (List.replicate n 'p').length = n
  rw [List.length_replicate]

theorem joinSep_single (sep x : String) : joinSep sep [x] = x := rfl

/-- C8 as stated fails on the code: a file whose read fails is rendered
as an inline `[error: …]` placeholder AND its path still appears in the
`filesRead` audit list. -/
theorem claimC8_counterexample :
    (buildEnrichedPrompt fsErr "p" (some ctxMissing) "ws").2 = ["missing.txt"] ∧
    fsErr.read (resolvePath "ws" "missing.txt") = .err "ENOENT: no such file or directory" ∧
    strContains (buildEnrichedPrompt fsErr "p" (some ctxMissing) "ws").1
      "missing.txt: [error: ENOENT" = true := by
  decide

/-- C8 (amended): the `filesRead` audit list returned with the enriched
prompt contains exactly the paths of ALL referenced files, in reference
order, whether or not the read succeeded; a missing or unreadable file is
rendered as an inline `[error: …]` placeholder without failing the task,
but its path still appears in the list. -/
theorem claimC8_files_read (fs : FsOracle) (prompt : String) (ctx : Option TaskContext)
    (ws : String) (fc : FileContext) (msg : String)
    (herr : fs.read (resolvePath ws fc.path) = .err msg)
    (hpat : fc.mode = .grep → fc.pattern.isSome = true) :
    (buildEnrichedPrompt fs prompt ctx ws).2 = filesReadOf ctx ∧
    readFileWithMode fs fc ws = fc.path ++ ": [error: " ++ msg ++ "]" := by
  constructor
  · unfold buildEnrichedPrompt
    dsimp only
    split <;> rfl
  · unfold readFileWithMode
    cases hm : fc.mode with
    | full => dsimp only; rw [herr]
    | summary => dsimp only; rw [herr]
    | grep =>
      rcases hp : fc.pattern with _ | pat
      · have := hpat hm
        rw [hp] at this
        exact absurd this (by simp)
      · dsimp only; rw [herr]

/-- Witness for C8 (amended) at the missing-file fixture. -/
theorem claimC8_witness :
    (buildEnrichedPrompt fsErr "p" (some ctxMissing) "ws").2 = filesReadOf (some ctxMissing) ∧
    readFileWithMode fsErr { path := "missing.txt", mode := .full } "ws"
      = "missing.txt" ++ ": [error: " ++ "ENOENT: no such file or directory" ++ "]" :=
  claimC8_files_read fsErr "p" (some ctxMissing) "ws" { path := "missing.txt", mode := .full }
    "ENOENT: no such file or directory" (by decide) (by decide)

/-- When the truncation guard holds, the enriched prompt is assembled
from the truncated context followed by the fixed marker. -/
theorem buildEnrichedPrompt_truncated (fs : FsOracle) (prompt : String)
    (ctx : Option TaskContext) (ws : String)
    (htr : contextTruncated fs prompt ctx ws = true) :
    (buildEnrichedPrompt fs prompt ctx ws).1
      = "[CONTEXT from parent agent]\n"
          ++ ((joinSep "\n\n" (contextPartsOf fs ctx ws)).take (maxContextLenOf prompt).toNat
              ++ TRUNC_MARKER)
          ++ "\n\n[TASK]\n" ++ prompt := by
  unfold contextTruncated at htr
  rw [Bool.and_eq_true] at htr
  obtain ⟨hne, hcond⟩ := htr
  unfold buildEnrichedPrompt
  dsimp only
  rw [if_neg (by simp_all), if_pos hcond]

/-- C9 (amended): whenever the Context Builder truncates the context
block, the truncated block ends with an explicit fixed marker indicating
truncation, but the marker is constant text containing no digits, so it
does not state how many characters were cut. -/
theorem claimC9_truncation_marker (fs : FsOracle) (prompt : String)
    (ctx : Option TaskContext) (ws : String)
    (htr : contextTruncated fs prompt ctx ws = true) :
    (buildEnrichedPrompt fs prompt ctx ws).1
      = "[CONTEXT from parent agent]\n"
          ++ ((joinSep "\n\n" (contextPartsOf fs ctx ws)).take (maxContextLenOf prompt).toNat
              ++ TRUNC_MARKER)
          ++ "\n\n[TASK]\n" ++ prompt ∧
    TRUNC_MARKER.toList.all (fun c => !c.isDigit) = true :=
  ⟨buildEnrichedPrompt_truncated fs prompt ctx ws htr, by decide⟩

/-- C9 as stated fails at a concrete truncating input: 104 characters are
cut, but the appended marker is fixed digit-free text (in particular it
does not contain `104`), so it cannot state how many characters were
cut. -/
theorem claimC9_counterexample :
    contextTruncated (fsOfContent (aRep 6000)) "p" (some ctxOneFile) "ws" = true ∧
    (joinSep "\n\n" (contextPartsOf (fsOfContent (aRep 6000)) (some ctxOneFile) "ws")).length
      = 6003 ∧
    maxContextLenOf "p" = 5899 ∧
    (buildEnrichedPrompt (fsOfContent (aRep 6000)) "p" (some ctxOneFile) "ws").1
      = "[CONTEXT from parent agent]\n"
          ++ ((joinSep "\n\n"
                (contextPartsOf (fsOfContent (aRep 6000)) (some ctxOneFile) "ws")).take 5899
              ++ TRUNC_MARKER)
          ++ "\n\n[TASK]\n" ++ "p" ∧
    TRUNC_MARKER.toList.all (fun c => !c.isDigit) = true ∧
    strContains TRUNC_MARKER "104" = false := by
  have hparts : contextPartsOf (fsOfContent (aRep 6000)) (some ctxOneFile) "ws"
      = ["f:\n" ++ aRep 6000] := rfl
  have hl2 : ("f:\n" ++ aRep 6000).length = 6003 := by
    rw [String.length_append, aRep_length]
    rfl
  have hlen : (joinSep "\n\n" (contextPartsOf (fsOfContent (aRep 6000)) (some ctxOneFile) "ws")).length
      = 6003 := by
    rw [hparts, joinSep_single, hl2]
  have hm : maxContextLenOf "p" = 5899 := by decide
  have htr : contextTruncated (fsOfContent (aRep 6000)) "p" (some ctxOneFile) "ws" = true := by
    unfold contextTruncated truncCond
    rw [hparts, joinSep_single, hl2, hm]
    decide
  have heq := buildEnrichedPrompt_truncated (fsOfContent (aRep 6000)) "p" (some ctxOneFile) "ws" htr
  rw [hm] at heq
  exact ⟨htr, hlen, hm, heq, by decide, by decide⟩

/-- C10: `buildEnrichedPrompt` enforces its size cap only when the
computed context budget `6000 - prompt.length - 100` exceeds 500: a
prompt longer than 5400 characters never triggers truncation, so the
enriched prompt's total length is unbounded. -/
theorem claimC10_no_cap_for_long_prompts :
    (∀ (fs : FsOracle) (prompt : String) (ctx : Option TaskContext) (ws : String),
      5400 < prompt.length → contextTruncated fs prompt ctx ws = false) ∧
    (∀ B : Nat, ∃ (fs : FsOracle) (prompt : String) (ctx : Option TaskContext) (ws : String),
      5400 < prompt.length ∧ B < ((buildEnrichedPrompt fs prompt ctx ws).1).length) := by
  have hc : ∀ (fs : FsOracle) (prompt : String) (ctx : Option TaskContext) (ws : String),
      5400 < prompt.length → contextTruncated fs prompt ctx ws = false := by
    intro fs prompt ctx ws hlen
    unfold contextTruncated truncCond
    have h5 : ¬ (500 < maxContextLenOf prompt) := by
      unfold maxContextLenOf MAX_PROMPT_LENGTH
      omega
    simp [h5]
  refine ⟨hc, fun B => ?_⟩
  refine ⟨fsOfContent (aRep (B + 1)), pRep 5401, some ctxOneFile, "ws", by
    rw [pRep_length]; omega, ?_⟩
  have hparts : contextPartsOf (fsOfContent (aRep (B + 1))) (some ctxOneFile) "ws"
      = ["f:\n" ++ aRep (B + 1)] := rfl
  have hm2 : maxContextLenOf (pRep 5401) = 499 := by
    unfold maxContextLenOf MAX_PROMPT_LENGTH
    rw [pRep_length]
    decide
  have hcond : truncCond (joinSep "\n\n" ["f:\n" ++ aRep (B + 1)])
      (maxContextLenOf (pRep 5401)) = false := by
    unfold truncCond
    rw [hm2]
    simp
  unfold buildEnrichedPrompt
  rw [hparts]
  dsimp only
  rw [if_neg (by simp), if_neg (by simp [hcond])]
  rw [joinSep_single]
  simp only [String.length_append, aRep_length, pRep_length]
  omega

/-- Witness for C9 (amended) at the concrete truncating input. -/
theorem claimC9_witness :
    contextTruncated (fsOfContent (aRep 6000)) "p" (some ctxOneFile) "ws" = true ∧
    (buildEnrichedPrompt (fsOfContent (aRep 6000)) "p" (some ctxOneFile) "ws").1
      = "[CONTEXT from parent agent]\n"
          ++ ((joinSep "\n\n"
                (contextPartsOf (fsOfContent (aRep 6000)) (some ctxOneFile) "ws")).take
                  (maxContextLenOf "p").toNat
              ++ TRUNC_MARKER)
          ++ "\n\n[TASK]\n" ++ "p" := by
  have hparts : contextPartsOf (fsOfContent (aRep 6000)) (some ctxOneFile) "ws"
      = ["f:\n" ++ aRep 6000] := rfl
  have hl2 : ("f:\n" ++ aRep 6000).length = 6003 := by
    rw [String.length_append, aRep_length]
    rfl
  have htr : contextTruncated (fsOfContent (aRep 6000)) "p" (some ctxOneFile) "ws" = true := by
    unfold contextTruncated truncCond
    rw [hparts, joinSep_single, hl2]
    decide
  exact ⟨htr,
    (claimC9_truncation_marker (fsOfContent (aRep 6000)) "p" (some ctxOneFile) "ws" htr).1⟩

/-- Witness for C10: a 5401-character prompt never triggers truncation,
and the enriched prompt length exceeds a concrete bound far above the
6000-character cap. -/
theorem claimC10_witness :
    contextTruncated (fsOfContent (aRep 6000)) (pRep 5401) (some ctxOneFile) "ws" = false ∧
    (∃ (fs : FsOracle) (prompt : String) (ctx : Option TaskContext) (ws : String),
      5400 < prompt.length ∧ 100000 < ((buildEnrichedPrompt fs prompt ctx ws).1).length) :=
  ⟨claimC10_no_cap_for_long_prompts.1 (fsOfContent (aRep 6000)) (pRep 5401) (some ctxOneFile)
      "ws" (by rw [pRep_length]; omega),
   claimC10_no_cap_for_long_prompts.2 100000⟩

end Orchestrator
